import Mathlib

/-!
# Verification of the deepstack_object image-processing pipeline

Shallow embedding of `custom_components/deepstack_object/image_processing.py`:
geometry primitives, the label classifier, the detection normalizer, the
filename slug, the target matcher inside `process_image`, and the state
transition `process_image` performs on an `ObjectClassifyEntity`.

Python floats are modelled as rationals (ℚ); Python's `round(x, 3)` is
modelled by `pyRound3` (round half to even at the third decimal).  Python
dictionaries with a fixed key set become structures, lists become `List`.
-/

/-- The `ANIMALS` list from the source (lines 48-59). -/
def ANIMALS : List String :=
  ["bird", "cat", "dog", "horse", "sheep", "cow", "elephant", "bear", "zebra", "giraffe"]

/-- The `VEHICLES` list from the source (line 63). -/
def VEHICLES : List String :=
  ["bicycle", "car", "motorcycle", "airplane", "bus", "train", "truck"]

/-- Model of `Box = namedtuple("Box", "y_min x_min y_max x_max")` (line 132). -/
structure Box where
  y_min : ℚ
  x_min : ℚ
  y_max : ℚ
  x_max : ℚ
deriving DecidableEq, Repr

/-- Model of `Point = namedtuple("Point", "y x")` (line 133). -/
structure Point where
  y : ℚ
  x : ℚ
deriving DecidableEq, Repr

/-- Model of `point_in_box` (lines 136-140): returns `True` when
`box.x_min <= point.x <= box.x_max and box.y_min <= point.y <= box.y_max`,
else `False`. -/
def point_in_box (box : Box) (point : Point) : Bool :=
  if (box.x_min ≤ point.x ∧ point.x ≤ box.x_max)
      ∧ (box.y_min ≤ point.y ∧ point.y ≤ box.y_max) then
    true
  else
    false

/-- The `roi_dict` of the entity (lines 280-285): a dict with keys
`y_min, x_min, y_max, x_max`. -/
structure Roi where
  y_min : ℚ
  x_min : ℚ
  y_max : ℚ
  x_max : ℚ
deriving DecidableEq, Repr

/-- The `centroid` dict produced by `get_objects` (lines 181-184): keys `x`, `y`. -/
structure Centroid where
  x : ℚ
  y : ℚ
deriving DecidableEq, Repr

/-- Model of `object_in_roi` (lines 143-147): converts the dicts to `Point` and `Box`
and delegates to `point_in_box`. -/
def object_in_roi (roi : Roi) (centroid : Centroid) : Bool :=
  point_in_box ⟨roi.y_min, roi.x_min, roi.y_max, roi.x_max⟩ ⟨centroid.y, centroid.x⟩

/-- Model of `get_object_type` (lines 154-162). -/
def get_object_type (object_name : String) : String :=
  if object_name = "person" then "person"
  else if object_name ∈ ANIMALS then "animal"
  else if object_name ∈ VEHICLES then "vehicle"
  else "other"

/-- Python `str.strip()` on the character list: drop leading and trailing
whitespace. -/
def pyStrip (l : List Char) : List Char :=
  ((l.dropWhile Char.isWhitespace).reverse.dropWhile Char.isWhitespace).reverse

/-- The character class kept by the regex `[-\w.]` of `get_valid_filename`
(line 151): word characters (alphanumeric or underscore), dot and dash. -/
def keepChar (c : Char) : Bool :=
  c = '-' || c.isAlphanum || c = '_' || c = '.'

/-- Model of `get_valid_filename` (lines 150-151):
`re.sub(r"(?u)[^-\w.]", "", str(name).strip().replace(" ", "_"))`.
The single-character replace is a character map; the regex substitution with
the empty string is a filter keeping `[-\w.]` characters. -/
def get_valid_filename (name : String) : String :=
  ⟨((pyStrip name.data).map (fun c => if c = ' ' then '_' else c)).filter keepChar⟩

/-- Round half to even on ℚ, the tie-breaking rule of Python's `round`. -/
def roundHalfToEven (q : ℚ) : ℤ :=
  let f : ℤ := ⌊q⌋
  let r : ℚ := q - f
  if r < 1/2 then f
  else if 1/2 < r then f + 1
  else if f % 2 = 0 then f else f + 1

/-- Python's `round(x, 3)` (the `decimal_places = 3` of `get_objects`,
line 168), modelled on exact rationals. -/
def pyRound3 (q : ℚ) : ℚ :=
  (roundHalfToEven (q * 1000) : ℚ) / 1000

theorem roundHalfToEven_intCast (n : ℤ) : roundHalfToEven (n : ℚ) = n := by
  simp [roundHalfToEven]

/-- When `q` is an exact multiple of `1/1000`, rounding to three decimals
returns `q` itself. -/
theorem pyRound3_int_mul (q : ℚ) (n : ℤ) (h : q * 1000 = (n : ℚ)) : pyRound3 q = q := by
  rw [pyRound3, h, roundHalfToEven_intCast, ← h]
  exact mul_div_cancel_right₀ q (by norm_num)

/-- A raw detection from the detector: dict with keys
`x_min, y_min, x_max, y_max, label, confidence` (used at lines 170-187). -/
structure Prediction where
  x_min : ℚ
  y_min : ℚ
  x_max : ℚ
  y_max : ℚ
  label : String
  confidence : ℚ
deriving DecidableEq, Repr

/-- The `box` dict built by `get_objects` (lines 172-179). -/
structure BoundingBox where
  height : ℚ
  width : ℚ
  y_min : ℚ
  x_min : ℚ
  y_max : ℚ
  x_max : ℚ
deriving DecidableEq, Repr

/-- One element of the list returned by `get_objects` (lines 189-198). -/
structure DetectedObject where
  bounding_box : BoundingBox
  box_area : ℚ
  centroid : Centroid
  name : String
  object_type : String
  confidence : ℚ
deriving DecidableEq, Repr

/-- The loop body of `get_objects` (lines 169-198) for one prediction. -/
def getObject (pred : Prediction) (img_width img_height : ℕ) : DetectedObject :=
  let box_width := pred.x_max - pred.x_min
  let box_height := pred.y_max - pred.y_min
  let box : BoundingBox :=
    { height := pyRound3 (box_height / (img_height : ℚ))
      width := pyRound3 (box_width / (img_width : ℚ))
      y_min := pyRound3 (pred.y_min / (img_height : ℚ))
      x_min := pyRound3 (pred.x_min / (img_width : ℚ))
      y_max := pyRound3 (pred.y_max / (img_height : ℚ))
      x_max := pyRound3 (pred.x_max / (img_width : ℚ)) }
  let box_area := pyRound3 (box.height * box.width)
  let centroid : Centroid :=
    { x := pyRound3 (box.x_min + box.width / 2)
      y := pyRound3 (box.y_min + box.height / 2) }
  { bounding_box := box
    box_area := box_area
    centroid := centroid
    name := pred.label
    object_type := get_object_type pred.label
    confidence := pyRound3 (pred.confidence * 100) }

/-- Model of `get_objects` (lines 165-199): the loop appends one normalized record per
prediction, in input order. -/
def get_objects (predictions : List Prediction) (img_width img_height : ℕ) :
    List DetectedObject :=
  match predictions with
  | [] => []
  | pred :: rest => getObject pred img_width img_height :: get_objects rest img_width img_height

/-- One validated entry of the `targets` configuration (`TARGETS_SCHEMA`,
lines 104-109): a dict with keys `target` (a string) and `confidence`
(a float in `[0, 100]`, defaulting to the global default). -/
structure TargetEntry where
  target : String
  confidence : ℚ
deriving DecidableEq, Repr

/-- Python truthiness of a string: the empty string is falsy, every other
string is truthy. -/
def pyStrTruthy (s : String) : Bool :=
  !(s == "")

/-- Python `==` between a `str` and a targets-schema dict: the operands have
different types and neither defines cross-type equality, so the comparison
is always `False`. -/
def strEqTargetEntry (_s : String) (_t : TargetEntry) : Bool :=
  false

/-- Python `obj["object_type"] in self._targets` (line 316): `in` on a list
tests the string against each element — each a configuration dict — with
`==`. -/
def objectTypeInTargets (s : String) (targets : List TargetEntry) : Bool :=
  targets.any (strEqTargetEntry s)

/-- The filter predicate building `self._targets_found` (lines 313-319):
`(obj["name"] or obj["object_type"] in self._targets)
 and (obj["confidence"] > self._confidence)
 and (object_in_roi(self._roi_dict, obj["centroid"]))`.
Python's `or` binds looser than `in`, so the first conjunct is the
truthiness of `obj["name"]` disjoined with the membership test. -/
def targetMatch (targets : List TargetEntry) (confidence : ℚ) (roi : Roi)
    (obj : DetectedObject) : Bool :=
  (pyStrTruthy obj.name || objectTypeInTargets obj.object_type targets)
    && decide (obj.confidence > confidence)
    && object_in_roi roi obj.centroid

/-- The fields of `ObjectClassifyEntity` that the processing cycle reads or
writes (`__init__`, lines 236-292): configuration fields first, then the
per-image result fields and the persistent `_last_detection`. -/
structure EntityState where
  targets : List TargetEntry
  confidence : ℚ
  roi_dict : Roi
  show_boxes : Bool
  save_file_folder : Option String
  save_timestamped_file : Bool
  name : String
  state : Option ℕ
  objects : List DetectedObject
  targets_found : List DetectedObject
  summary : List (String × ℕ)
  last_detection : Option String
deriving DecidableEq, Repr

/-- Model of `ds.DeepstackException` raised by `self._dsobject.detect` (line 307):
network, auth or request failure of the detector. -/
structure DeepstackException where
  msg : String
deriving DecidableEq, Repr

/-- Modelled from the spec: `ds.get_objects_summary` (line 311) lives in the
external `deepstack` client library, not in this repository; the spec
describes the summary as a "mapping from label to count of all detections of
that label". -/
def get_objects_summary (predictions : List Prediction) : List (String × ℕ) :=
  (predictions.map (fun p => p.label)).dedup.map
    (fun l => (l, (predictions.filter (fun p => p.label = l)).length))

/-- The names bound by the import `from PIL import Image, ImageDraw`
(line 17); no other PIL name is imported anywhere in the module. -/
def pilImportedNames : List String :=
  ["Image", "ImageDraw"]

/-- Whether the name `UnidentifiedImageError` of the except clause at
line 388 resolves in scope: it is not a Python builtin, the module never
defines it, and the PIL import is the only place it could have come from. -/
def exceptHandlerResolves : Bool :=
  pilImportedNames.contains ("UnidentifiedImageError")

/-- The image bytes handed to `save_image`: either bytes PIL decodes to an
image of the given pixel size, or undecodable data. -/
inductive ImageBytes where
  | valid (width height : ℕ)
  | invalid
deriving DecidableEq, Repr

/-- Result of a Python call: a returned value, or an uncaught exception
identified by its class name. -/
inductive PyResult (α : Type) where
  | ok (val : α)
  | exn (exnClass : String)
deriving DecidableEq, Repr

/-- Model of `pathlib`'s `directory / filename`. -/
def pathJoin (dir file : String) : String :=
  dir ++ "/" ++ file

/-- Python `str.lower()`: lower-case character by character. -/
def pyLower (s : String) : String :=
  ⟨s.data.map Char.toLower⟩

/-- The file name of the rolling "latest" image (lines 425-427):
`f"{get_valid_filename(self._name).lower()}_latest.jpg"` — the caller
lower-cases the slug. -/
def latestBasename (name : String) : String :=
  pyLower (get_valid_filename name) ++ "_latest.jpg"

/-- The file name of the timestamped image (line 433):
`f"{self._name}_{self._last_detection}.jpg"` — the raw entity name, and the
f-string renders `None` as the text `None` when no detection happened yet. -/
def timestampedBasename (name : String) (last_detection : Option String) : String :=
  name ++ "_" ++ (match last_detection with | some t => t | none => "None") ++ ".jpg"

/-- The file-writing tail of `save_image` (lines 424-437) once the image has
been decoded: write the "latest" file, optionally the timestamped file, and
return the timestamped path when written, else the latest path.  The second
component lists the written paths in write order. -/
def save_image_writes (st : EntityState) (directory : String) : String × List String :=
  let latest := pathJoin directory (latestBasename st.name)
  if st.save_timestamped_file then
    let ts := pathJoin directory (timestampedBasename st.name st.last_detection)
    (ts, [latest, ts])
  else
    (latest, [latest])

/-- Model of `save_image` (lines 381-437).  On undecodable bytes `Image.open` raises
`PIL.UnidentifiedImageError`; matching the except clause at line 388 then
evaluates the name `UnidentifiedImageError`, which the module never imports
(line 17 imports only `Image` and `ImageDraw` from PIL), so the handler
itself raises `NameError`, which escapes to the caller in place of the
intended log-and-return.  On decodable bytes the drawing steps touch only
pixels and the files of `save_image_writes` are written. -/
def save_image (st : EntityState) (image : ImageBytes) (directory : String) :
    PyResult (Option String × List String) :=
  match image with
  | ImageBytes.invalid =>
    if exceptHandlerResolves then
      PyResult.ok (none, [])
    else
      PyResult.exn ("NameError")
  | ImageBytes.valid _ _ =>
    let pw := save_image_writes st directory
    PyResult.ok (some pw.1, pw.2)

/-- The event payload fired for each found target (lines 330-336): the
detection record plus the firing entity's id and, when an image was saved,
the saved path (`if saved_image_path:` — a written path is a nonempty string,
hence truthy). -/
structure EventPayload where
  obj : DetectedObject
  entity_id : String
  saved_file : Option String
deriving DecidableEq, Repr

/-- Everything one call of `process_image` produces: the updated entity
fields, the image files written, and the events fired, in order. -/
structure ProcessOutput where
  entity : EntityState
  files_written : List String
  events : List EventPayload
deriving DecidableEq, Repr

/-- Model of `process_image` (lines 294-336) as a state transition.  The image was
decoded at line 296 with size `img_width × img_height` (undecodable bytes
raise there, before any field is touched); `detect_result` is the outcome of
`self._dsobject.detect(image)`; `now` is `dt_util.now().strftime(DATETIME_FORMAT)`;
`entity_id` is the Home Assistant entity id.  When the save step runs, the
bytes are the same ones already decoded at line 296, so `save_image` takes
its decodable branch. -/
def process_image (st : EntityState) (img_width img_height : ℕ)
    (detect_result : Except DeepstackException (List Prediction))
    (now entity_id : String) : ProcessOutput :=
  let st0 := { st with state := none, objects := [], targets_found := [], summary := [] }
  match detect_result with
  | Except.error _ => ⟨st0, [], []⟩
  | Except.ok predictions =>
    let objects := get_objects predictions img_width img_height
    let targets_found := objects.filter (targetMatch st0.targets st0.confidence st0.roi_dict)
    let state := targets_found.length
    let last_detection := if 0 < state then some now else st0.last_detection
    let st1 := { st0 with
      summary := get_objects_summary predictions
      objects := objects
      targets_found := targets_found
      state := some state
      last_detection := last_detection }
    let saved : Option String × List String :=
      match st1.save_file_folder with
      | some directory =>
        if 0 < state then
          match save_image st1 (ImageBytes.valid img_width img_height) directory with
          | PyResult.ok pw => pw
          | PyResult.exn _ => (none, [])
        else (none, [])
      | none => (none, [])
    let events := st1.targets_found.map (fun o => EventPayload.mk o entity_id saved.1)
    ⟨st1, saved.2, events⟩

/-- Unfolding lemma: the loop of `get_objects` is a map over the predictions. -/
theorem get_objects_eq_map (predictions : List Prediction) (w h : ℕ) :
    get_objects predictions w h = predictions.map (fun p => getObject p w h) := by
  induction predictions with
  | nil => rfl
  | cons p rest ih => simp [get_objects, ih]

/-- C8: `point_in_box` returns true exactly when the point lies within the
box with inclusive bounds on both axes; consequently a malformed box whose
min exceeds its max on either axis contains no point. -/
theorem point_in_box_inclusive_iff (box : Box) (point : Point) :
    (point_in_box box point = true ↔
      box.x_min ≤ point.x ∧ point.x ≤ box.x_max ∧
      box.y_min ≤ point.y ∧ point.y ≤ box.y_max) ∧
    (box.x_max < box.x_min ∨ box.y_max < box.y_min → point_in_box box point = false) := by
  have hiff : point_in_box box point = true ↔
      (box.x_min ≤ point.x ∧ point.x ≤ box.x_max) ∧
      (box.y_min ≤ point.y ∧ point.y ≤ box.y_max) := by
    unfold point_in_box
    split
    · next hc => simp [hc]
    · next hc => simp [hc]
  constructor
  · rw [hiff]; tauto
  · intro h
    cases hb : point_in_box box point with
    | false => rfl
    | true =>
      exfalso
      have hc := hiff.mp hb
      rcases h with h | h
      · exact absurd (hc.1.1.trans hc.1.2) (not_le.mpr h)
      · exact absurd (hc.2.1.trans hc.2.2) (not_le.mpr h)

/-- Witness for C8: an interior point of the unit box tests true; a malformed
box with `x_min = 1 > x_max = 0` contains nothing. -/
theorem point_in_box_inclusive_iff_witness :
    point_in_box ⟨0, 0, 1, 1⟩ ⟨1/2, 1/2⟩ = true ∧
    point_in_box ⟨1, 1, 0, 0⟩ ⟨1/2, 1/2⟩ = false :=
  ⟨(point_in_box_inclusive_iff ⟨0, 0, 1, 1⟩ ⟨1/2, 1/2⟩).1.mpr (by norm_num),
   (point_in_box_inclusive_iff ⟨1, 1, 0, 0⟩ ⟨1/2, 1/2⟩).2 (Or.inl (by norm_num))⟩

/-- C9: the filename slug of "My Cam #1" is "My_Cam_1" — the space becomes an
underscore, the disallowed hash is stripped, and letter case is preserved by
`get_valid_filename` itself; the lower-casing seen in saved filenames is
applied by the caller (line 426), modelled by `latestBasename`. -/
theorem get_valid_filename_sample :
    get_valid_filename ("My Cam #1") = "My_Cam_1" ∧
    latestBasename ("My Cam #1") = "my_cam_1_latest.jpg" := by
  constructor <;> rfl

/-- C4: when the detector raises `DeepstackException`, `process_image`
returns right after the log: state, objects, targets_found and summary keep
their reset values, `_last_detection` is untouched, no file is written and
no event is fired. -/
theorem process_image_detector_error (st : EntityState) (img_width img_height : ℕ)
    (exc : DeepstackException) (now entity_id : String) :
    process_image st img_width img_height (Except.error exc) now entity_id =
      ⟨{ st with state := none, objects := [], targets_found := [], summary := [] },
        [], []⟩ := rfl

/-- C5: `save_image` on undecodable bytes does not fail gracefully — the
except clause at line 388 names `UnidentifiedImageError`, which the module
never imports, so the handler itself raises `NameError` and an exception
escapes to the caller instead of the intended log-and-return. -/
theorem save_image_invalid_raises (st : EntityState) (directory : String) :
    save_image st ImageBytes.invalid directory = PyResult.exn ("NameError") := rfl

/-- C6: `get_objects` returns one normalized record per raw detection, in
the input order, and on image width 100 and height 200 the raw detection
(10, 20, 50, 60, dog, 0.85) normalizes to bounding box
(0.1, 0.1)-(0.5, 0.3) of width 0.4 and height 0.2, area 0.08, centroid
(0.3, 0.2), confidence 85 and object type animal. -/
theorem get_objects_order_and_sample :
    (∀ (predictions : List Prediction) (w h : ℕ),
      (get_objects predictions w h).length = predictions.length ∧
      ∀ i : ℕ, (get_objects predictions w h)[i]? =
        (predictions[i]?).map (fun p => getObject p w h)) ∧
    get_objects [⟨10, 20, 50, 60, "dog", 85/100⟩] 100 200 =
      [{ bounding_box := ⟨1/5, 2/5, 1/10, 1/10, 3/10, 1/2⟩
         box_area := 2/25
         centroid := ⟨3/10, 1/5⟩
         name := "dog"
         object_type := "animal"
         confidence := 85 }] := by
  constructor
  · intro predictions w h
    rw [get_objects_eq_map]
    exact ⟨by simp, fun i => by simp⟩
  · rw [get_objects_eq_map, List.map_cons, List.map_nil]
    simp only [getObject, pyRound3, roundHalfToEven, get_object_type, ANIMALS, VEHICLES]
    push_cast
    norm_num

/-- A timestamp string fixture for concrete runs. -/
def nowStr : String := "2021-01-01_00-00-00"

/-- An entity id fixture for concrete runs. -/
def entityIdStr : String := "image_processing.deepstack_object_cam"

/-- An entity as configured by the default schema: the single target person
at confidence 80, global threshold 80, full-image ROI, boxes shown, no save
folder, fresh per-image fields. -/
def baseState : EntityState where
  targets := [⟨"person", 80⟩]
  confidence := 80
  roi_dict := ⟨0, 0, 1, 1⟩
  show_boxes := true
  save_file_folder := none
  save_timestamped_file := false
  name := "deepstack_object_cam"
  state := none
  objects := []
  targets_found := []
  summary := []
  last_detection := none

/-- A full-frame prediction on a 1×1 image: pixel box (0,0)-(1,1). -/
def unitPred (label : String) (conf : ℚ) : Prediction :=
  ⟨0, 0, 1, 1, label, conf⟩

/-- The normalized record `get_objects` produces for `unitPred` on a 1×1
image: full-frame unit box, centroid at the image center. -/
def unitObject (label ty : String) (conf : ℚ) : DetectedObject where
  bounding_box := ⟨1, 1, 0, 0, 1, 1⟩
  box_area := 1
  centroid := ⟨1/2, 1/2⟩
  name := label
  object_type := ty
  confidence := conf

theorem getObject_unitPred (label : String) (conf : ℚ) :
    getObject (unitPred label conf) 1 1 =
      unitObject label (get_object_type label) (pyRound3 (conf * 100)) := by
  simp only [unitPred, unitObject, getObject, pyRound3, roundHalfToEven]
  push_cast
  norm_num

theorem pyRound3_conf90 : pyRound3 ((9/10 : ℚ) * 100) = 90 := by
  simp only [pyRound3, roundHalfToEven]
  norm_num

theorem pyRound3_conf60 : pyRound3 ((6/10 : ℚ) * 100) = 60 := by
  simp only [pyRound3, roundHalfToEven]
  norm_num

/-- A couch detection at raw confidence 0.9, normalized. -/
def couchObject : DetectedObject := unitObject ("couch") ("other") 90

/-- An empty-label detection at raw confidence 0.9, normalized. -/
def emptyNameObject : DetectedObject := unitObject ("") ("other") 90

/-- A person detection at raw confidence 0.9, normalized. -/
def personObject : DetectedObject := unitObject ("person") ("person") 90

/-- A person detection at raw confidence 0.6, normalized. -/
def personObject60 : DetectedObject := unitObject ("person") ("person") 60

theorem get_objects_couch : get_objects [unitPred ("couch") (9/10)] 1 1 = [couchObject] := by
  rw [get_objects_eq_map, List.map_cons, List.map_nil, getObject_unitPred, pyRound3_conf90]
  rfl

theorem get_objects_emptyName : get_objects [unitPred ("") (9/10)] 1 1 = [emptyNameObject] := by
  rw [get_objects_eq_map, List.map_cons, List.map_nil, getObject_unitPred, pyRound3_conf90]
  rfl

theorem get_objects_person : get_objects [unitPred ("person") (9/10)] 1 1 = [personObject] := by
  rw [get_objects_eq_map, List.map_cons, List.map_nil, getObject_unitPred, pyRound3_conf90]
  rfl

theorem get_objects_person60 : get_objects [unitPred ("person") (6/10)] 1 1 = [personObject60] := by
  rw [get_objects_eq_map, List.map_cons, List.map_nil, getObject_unitPred, pyRound3_conf60]
  rfl

/-- The object-type membership test of line 316 never succeeds: each element
of the configured target list is a schema dict, never equal to a string. -/
theorem objectTypeInTargets_eq_false (s : String) (targets : List TargetEntry) :
    objectTypeInTargets s targets = false := by
  induction targets with
  | nil => rfl
  | cons t rest ih =>
    show (strEqTargetEntry s t || rest.any (strEqTargetEntry s)) = false
    rw [show rest.any (strEqTargetEntry s) = objectTypeInTargets s rest from rfl, ih]
    rfl

/-- The target-match predicate collapses: the membership test never succeeds,
so the name/type part is exactly the truthiness of the detection's name. -/
theorem targetMatch_eq (targets : List TargetEntry) (confidence : ℚ) (roi : Roi)
    (obj : DetectedObject) :
    targetMatch targets confidence roi obj =
      (!(obj.name == "") && decide (obj.confidence > confidence)
        && object_in_roi roi obj.centroid) := by
  simp only [targetMatch, pyStrTruthy, objectTypeInTargets_eq_false, Bool.or_false]

/-- Unfolding lemma: the entity fields after a successful detection cycle. -/
theorem process_image_ok_entity (st : EntityState) (w h : ℕ)
    (preds : List Prediction) (now eid : String) :
    (process_image st w h (Except.ok preds) now eid).entity =
      { st with
        summary := get_objects_summary preds
        objects := get_objects preds w h
        targets_found := (get_objects preds w h).filter
          (targetMatch st.targets st.confidence st.roi_dict)
        state := some ((get_objects preds w h).filter
          (targetMatch st.targets st.confidence st.roi_dict)).length
        last_detection :=
          if 0 < ((get_objects preds w h).filter
              (targetMatch st.targets st.confidence st.roi_dict)).length
          then some now else st.last_detection } := rfl

/-- Projection lemma: `targets_found` after a successful detection cycle. -/
theorem process_image_ok_targets_found (st : EntityState) (w h : ℕ)
    (preds : List Prediction) (now eid : String) :
    (process_image st w h (Except.ok preds) now eid).entity.targets_found =
      (get_objects preds w h).filter
        (targetMatch st.targets st.confidence st.roi_dict) := rfl

/-- Projection lemma: `objects` after a successful detection cycle. -/
theorem process_image_ok_objects (st : EntityState) (w h : ℕ)
    (preds : List Prediction) (now eid : String) :
    (process_image st w h (Except.ok preds) now eid).entity.objects =
      get_objects preds w h := rfl

/-- Projection lemma: `state` after a successful detection cycle. -/
theorem process_image_ok_state (st : EntityState) (w h : ℕ)
    (preds : List Prediction) (now eid : String) :
    (process_image st w h (Except.ok preds) now eid).entity.state =
      some ((get_objects preds w h).filter
        (targetMatch st.targets st.confidence st.roi_dict)).length := rfl

/-- Projection lemma: `last_detection` after a successful detection cycle. -/
theorem process_image_ok_last_detection (st : EntityState) (w h : ℕ)
    (preds : List Prediction) (now eid : String) :
    (process_image st w h (Except.ok preds) now eid).entity.last_detection =
      (if 0 < ((get_objects preds w h).filter
          (targetMatch st.targets st.confidence st.roi_dict)).length
       then some now else st.last_detection) := rfl

/-- The image-center point lies inside the full-image ROI. -/
theorem object_in_roi_center : object_in_roi ⟨0, 0, 1, 1⟩ ⟨1/2, 1/2⟩ = true := by
  simp only [object_in_roi, point_in_box]
  norm_num

theorem targetMatch_couch :
    targetMatch baseState.targets baseState.confidence baseState.roi_dict couchObject = true := by
  rw [targetMatch_eq]
  simp only [couchObject, unitObject, baseState]
  norm_num [object_in_roi, point_in_box]
  decide

theorem targetMatch_emptyName :
    targetMatch baseState.targets baseState.confidence baseState.roi_dict emptyNameObject = false := by
  rw [targetMatch_eq]
  simp [emptyNameObject, unitObject]

/-- A predicate written from claim C1's words: the detection's name or its
object type belongs to the configured target set (the names carried by the
target entries), its confidence strictly exceeds the threshold, and its
centroid lies inside the ROI. -/
def specTargetMatch (targets : List TargetEntry) (confidence : ℚ) (roi : Roi)
    (obj : DetectedObject) : Bool :=
  (targets.any (fun t => t.target == obj.name)
      || targets.any (fun t => t.target == obj.object_type))
    && decide (obj.confidence > confidence)
    && object_in_roi roi obj.centroid

/-- C1 (counterexample): with the default person target, a couch detection at
confidence 90 centred in the ROI is put into `targets_found` by the code,
although neither its name nor its object type is in the target set — so
`targets_found` is not the subsequence the claim describes. -/
theorem targets_found_ne_spec_subsequence :
    (process_image baseState 1 1 (Except.ok [unitPred ("couch") (9/10)]) nowStr
        entityIdStr).entity.targets_found = [couchObject] ∧
    ((process_image baseState 1 1 (Except.ok [unitPred ("couch") (9/10)]) nowStr
        entityIdStr).entity.objects).filter
      (specTargetMatch baseState.targets baseState.confidence baseState.roi_dict) = [] := by
  constructor
  · rw [process_image_ok_targets_found, get_objects_couch, List.filter_cons, targetMatch_couch]
    rfl
  · rw [process_image_ok_objects, get_objects_couch, List.filter_cons]
    have : specTargetMatch baseState.targets baseState.confidence baseState.roi_dict
        couchObject = false := by
      simp [specTargetMatch, baseState, couchObject, unitObject]
    rw [this]
    rfl

/-- C1 (amended): `targets_found` is the ordered subsequence (preserving the
detector's return order) of the normalized detections whose name is
non-empty — the object-type membership test never succeeds against the
record-valued configured targets — whose confidence strictly exceeds the
global threshold, and whose centroid lies inside the configured ROI box. -/
theorem targets_found_characterization (st : EntityState) (w h : ℕ)
    (preds : List Prediction) (now eid : String) :
    (process_image st w h (Except.ok preds) now eid).entity.targets_found =
      (get_objects preds w h).filter
        (fun obj => !(obj.name == "") && decide (obj.confidence > st.confidence)
          && object_in_roi st.roi_dict obj.centroid) := by
  rw [process_image_ok_targets_found]
  congr 1
  funext obj
  rw [targetMatch_eq]

/-- C2 (counterexample): an empty-name detection whose confidence 90 exceeds
the threshold 80 and whose centroid lies inside the full-image ROI is NOT
collected into `targets_found`: the empty name is falsy and the membership test
fails against the record-valued targets. -/
theorem empty_name_not_found :
    (process_image baseState 1 1 (Except.ok [unitPred ("") (9/10)]) nowStr
        entityIdStr).entity.objects = [emptyNameObject] ∧
    emptyNameObject.confidence > baseState.confidence ∧
    object_in_roi baseState.roi_dict emptyNameObject.centroid = true ∧
    (process_image baseState 1 1 (Except.ok [unitPred ("") (9/10)]) nowStr
        entityIdStr).entity.targets_found = [] := by
  refine ⟨?_, by norm_num [emptyNameObject, unitObject, baseState], object_in_roi_center, ?_⟩
  · rw [process_image_ok_objects, get_objects_emptyName]
  · rw [process_image_ok_targets_found, get_objects_emptyName, List.filter_cons,
      targetMatch_emptyName]
    rfl

/-- C2 (amended): the name/type part of the target-match test is the
truthiness of the name: a detection with a NON-empty name passes it
unconditionally, regardless of the configured targets, while an empty-name
detection never counts as a found target at all. -/
theorem empty_name_never_matches (targets : List TargetEntry) (confidence : ℚ)
    (roi : Roi) (obj : DetectedObject) :
    (obj.name = "" → targetMatch targets confidence roi obj = false) ∧
    (obj.name ≠ "" → targetMatch targets confidence roi obj =
      (decide (obj.confidence > confidence) && object_in_roi roi obj.centroid)) := by
  constructor
  · intro hname
    rw [targetMatch_eq, hname]
    simp
  · intro hname
    have h2 : (obj.name == "") = false := beq_eq_false_iff_ne.mpr hname
    rw [targetMatch_eq, h2]
    simp

/-- Witness for C2 (amended) at concrete inputs: the empty-name detection
never matches; the couch detection's match is decided by confidence and ROI
alone although couch is not a configured target. -/
theorem empty_name_never_matches_witness :
    targetMatch baseState.targets 80 ⟨0, 0, 1, 1⟩ emptyNameObject = false ∧
    targetMatch baseState.targets 80 ⟨0, 0, 1, 1⟩ couchObject =
      (decide (couchObject.confidence > 80) && object_in_roi ⟨0, 0, 1, 1⟩ couchObject.centroid) :=
  ⟨(empty_name_never_matches baseState.targets 80 ⟨0, 0, 1, 1⟩ emptyNameObject).1 rfl,
   (empty_name_never_matches baseState.targets 80 ⟨0, 0, 1, 1⟩ couchObject).2 (by decide)⟩

/-- The base configuration with a single person target carrying its own
confidence floor 40; the global threshold stays 80. -/
def lowFloorState : EntityState :=
  { baseState with targets := [⟨"person", 40⟩] }

theorem targetMatch_person60 :
    targetMatch lowFloorState.targets lowFloorState.confidence lowFloorState.roi_dict
      personObject60 = false := by
  rw [targetMatch_eq]
  have hconf : ¬((60 : ℚ) > 80) := by norm_num
  simp [personObject60, unitObject, lowFloorState, baseState, hconf]

/-- C3 (counterexample): the person entry carries per-target floor 40; a
person detection at confidence 60 — above that floor and inside the ROI — is
still not matched, because the matcher only ever compares against the global
threshold 80. -/
theorem per_target_floor_not_used :
    lowFloorState.targets = [⟨"person", 40⟩] ∧
    (process_image lowFloorState 1 1 (Except.ok [unitPred ("person") (6/10)]) nowStr
        entityIdStr).entity.objects = [personObject60] ∧
    personObject60.name = "person" ∧
    personObject60.confidence > 40 ∧
    object_in_roi lowFloorState.roi_dict personObject60.centroid = true ∧
    (process_image lowFloorState 1 1 (Except.ok [unitPred ("person") (6/10)]) nowStr
        entityIdStr).entity.targets_found = [] := by
  refine ⟨rfl, ?_, rfl, by norm_num [personObject60, unitObject], object_in_roi_center, ?_⟩
  · rw [process_image_ok_objects, get_objects_person60]
  · rw [process_image_ok_targets_found, get_objects_person60, List.filter_cons,
      targetMatch_person60]
    rfl

/-- C3 (amended): the per-target confidence floors carried by the target
entries are dead configuration: replacing every entry's floor by any other
value leaves the matcher unchanged, and the only threshold a detection's
confidence is compared against is the global one. -/
theorem targetMatch_ignores_entry_floor (targets : List TargetEntry)
    (f : TargetEntry → ℚ) (confidence : ℚ) (roi : Roi) (obj : DetectedObject) :
    targetMatch (targets.map (fun t => ⟨t.target, f t⟩)) confidence roi obj =
      targetMatch targets confidence roi obj := by
  rw [targetMatch_eq, targetMatch_eq]

theorem targetMatch_person :
    targetMatch baseState.targets baseState.confidence baseState.roi_dict personObject = true := by
  rw [targetMatch_eq]
  simp only [personObject, unitObject, baseState]
  norm_num [object_in_roi, point_in_box]
  all_goals decide

/-- C7: `_last_detection` is set to the formatted current time exactly in a
successful cycle whose found-target count is positive; a successful cycle
with no found targets, and a detector-error cycle, leave it unchanged; and a
follow-up cycle with no detections resets state to 0 and `targets_found` to
empty while retaining the earlier value unchanged. -/
theorem last_detection_lifecycle (st : EntityState) (w h w2 h2 : ℕ)
    (preds : List Prediction) (exc : DeepstackException) (now now2 eid eid2 : String) :
    ((process_image st w h (Except.ok preds) now eid).entity.targets_found ≠ [] →
      (process_image st w h (Except.ok preds) now eid).entity.last_detection = some now) ∧
    ((process_image st w h (Except.ok preds) now eid).entity.targets_found = [] →
      (process_image st w h (Except.ok preds) now eid).entity.last_detection =
        st.last_detection) ∧
    ((process_image st w h (Except.error exc) now eid).entity.last_detection =
      st.last_detection) ∧
    ((process_image (process_image st w h (Except.ok preds) now eid).entity w2 h2
        (Except.ok []) now2 eid2).entity.state = some 0 ∧
      (process_image (process_image st w h (Except.ok preds) now eid).entity w2 h2
        (Except.ok []) now2 eid2).entity.targets_found = [] ∧
      (process_image (process_image st w h (Except.ok preds) now eid).entity w2 h2
        (Except.ok []) now2 eid2).entity.last_detection =
        (process_image st w h (Except.ok preds) now eid).entity.last_detection) := by
  refine ⟨?_, ?_, rfl, rfl, rfl, ?_⟩
  · intro hne
    rw [process_image_ok_targets_found] at hne
    rw [process_image_ok_last_detection, if_pos (List.length_pos.mpr hne)]
  · intro heq
    rw [process_image_ok_targets_found] at heq
    rw [process_image_ok_last_detection, heq]
    simp
  · rw [process_image_ok_last_detection]
    simp [get_objects]

/-- Witness for C7 at concrete inputs: with the default configuration, a
person detection at confidence 90 stamps the time, and an empty successful
cycle keeps the previous value (here the fresh entity's none). -/
theorem last_detection_lifecycle_witness :
    (process_image baseState 1 1 (Except.ok [unitPred ("person") (9/10)]) nowStr
        entityIdStr).entity.last_detection = some nowStr ∧
    (process_image baseState 1 1 (Except.ok []) nowStr entityIdStr).entity.last_detection
      = none :=
  ⟨(last_detection_lifecycle baseState 1 1 1 1 [unitPred ("person") (9/10)] ⟨""⟩ nowStr
      nowStr entityIdStr entityIdStr).1 (by
        rw [process_image_ok_targets_found, get_objects_person, List.filter_cons,
          targetMatch_person]
        simp),
    (last_detection_lifecycle baseState 1 1 1 1 [] ⟨""⟩ nowStr nowStr entityIdStr
      entityIdStr).2.1 rfl⟩

theorem dropWhile_eq_self_of_forall {α : Type} {p : α → Bool} {l : List α}
    (h : ∀ c ∈ l, p c = false) : l.dropWhile p = l := by
  cases l with
  | nil => rfl
  | cons a l =>
    rw [List.dropWhile_cons, h a (List.mem_cons_self a l)]
    simp

theorem map_eq_self_of_forall {α : Type} {f : α → α} {l : List α}
    (h : ∀ c ∈ l, f c = c) : l.map f = l := by
  induction l with
  | nil => rfl
  | cons a l ih =>
    rw [List.map_cons, h a (List.mem_cons_self a l),
      ih (fun c hc => h c (List.mem_cons_of_mem a hc))]

theorem pyStrip_eq_self_of_forall {l : List Char}
    (h : ∀ c ∈ l, c.isWhitespace = false) : pyStrip l = l := by
  unfold pyStrip
  rw [dropWhile_eq_self_of_forall h,
    dropWhile_eq_self_of_forall (fun c hc => h c (List.mem_reverse.mp hc)),
    List.reverse_reverse]

theorem keepChar_not_whitespace {c : Char} (h : keepChar c = true) :
    c.isWhitespace = false := by
  cases hw : c.isWhitespace with
  | false => rfl
  | true =>
    exfalso
    simp [Char.isWhitespace] at hw
    rcases hw with ((h1 | h1) | h1) | h1 <;> subst h1 <;> exact absurd h (by decide)

theorem keepChar_ne_space {c : Char} (h : keepChar c = true) : ¬(c = ' ') := by
  intro hc
  subst hc
  exact absurd h (by decide)

/-- A list of kept characters is a fixed point of the strip-replace-filter
chain of `get_valid_filename`. -/
theorem filter_keep_fixed (L : List Char) (hmem : ∀ c ∈ L, keepChar c = true) :
    ((pyStrip L).map (fun c => if c = ' ' then '_' else c)).filter keepChar = L := by
  rw [pyStrip_eq_self_of_forall (fun c hc => keepChar_not_whitespace (hmem c hc))]
  rw [map_eq_self_of_forall (fun c hc => if_neg (keepChar_ne_space (hmem c hc)))]
  exact List.filter_eq_self.mpr (fun c hc => hmem c hc)

/-- C10: `get_valid_filename` is idempotent — its output consists only of
kept characters (word characters, dots, dashes), which are neither
whitespace nor spaces, so the strip, the space replacement and the filter
all leave a second run's input unchanged. -/
theorem get_valid_filename_idem (s : String) :
    get_valid_filename (get_valid_filename s) = get_valid_filename s := by
  unfold get_valid_filename
  congr 1
  exact filter_keep_fixed _ (fun c hc => (List.mem_filter.mp hc).2)
